import Mathlib

/-!
Shallow embedding of the Game Boy emulator core (src/emulator/src/gb) and
proofs about it.  Machine integers are modelled as `Nat`; Rust's plain
`+`/`-` on `u8`/`u16`/`u32` (which panic on overflow in the debug profile
the repository builds with) are modelled as checked operations returning
`Option Nat`, while `overflowing_add`/`overflowing_sub` are modelled as
wrapping arithmetic paired with the carry bit.  Fallible code (panics,
failed asserts, out-of-bounds indexing) returns `none`.
-/

namespace GB

/-- Rust checked `u8` addition: `x + y` panics past 255. -/
def chkAdd8 (x y : Nat) : Option Nat :=
  if x + y ≤ 255 then some (x + y) else none

/-- Rust checked `u16` addition: `x + y` panics past 65535. -/
def chkAdd16 (x y : Nat) : Option Nat :=
  if x + y ≤ 65535 then some (x + y) else none

/-- Rust checked `u32` addition: `x + y` panics past 4294967295. -/
def chkAdd32 (x y : Nat) : Option Nat :=
  if x + y ≤ 4294967295 then some (x + y) else none

/-- Rust checked unsigned subtraction: `x - y` panics when `y > x`. -/
def chkSub (x y : Nat) : Option Nat :=
  if y ≤ x then some (x - y) else none

/-- Rust `u8::overflowing_add`: wrapped sum and the carry-out of bit 7. -/
def overflowingAdd8 (x y : Nat) : Nat × Bool :=
  ((x + y) % 256, 255 < x + y)

/-- Rust `u8::overflowing_sub`: wrapped difference and the borrow flag. -/
def overflowingSub8 (x y : Nat) : Nat × Bool :=
  ((x + 256 - y) % 256, x < y)

/-- Rust `u16::overflowing_add`: wrapped sum and the carry-out of bit 15. -/
def overflowingAdd16 (x y : Nat) : Nat × Bool :=
  ((x + y) % 65536, 65535 < x + y)

/-! ### ram.rs -/

/-- `RAM` (ram.rs): `memory: [u8; 0xFFFF]` — an array of 0xFFFF = 65535
bytes, so valid indices are 0 ..= 0xFFFE.  The array contents are modelled
as a total function; `read`/`write` perform the bounds check that Rust's
indexing does, returning `none` (panic) out of range. -/
structure RAM where
  memory : Nat → Nat

/-- `RAM::read`: `self.memory[address as usize]`. -/
def RAM.read (r : RAM) (address : Nat) : Option Nat :=
  if address < 0xFFFF then some (r.memory address) else none

/-- `RAM::write`: `self.memory[address as usize] = value`. -/
def RAM.write (r : RAM) (address value : Nat) : Option RAM :=
  if address < 0xFFFF then some ⟨Function.update r.memory address value⟩ else none

/-- The all-zero memory produced by `RAM::new`. -/
def ram0 : RAM := ⟨fun _ => 0⟩

/-! ### register.rs -/

/-- `Flags` (register.rs): four booleans bit-packed at
carry=bit4, half-carry=bit5, subtract=bit6, zero=bit7. -/
structure Flags where
  zero : Bool
  subtract : Bool
  half_carry : Bool
  carry : Bool
deriving DecidableEq

/-- `Flags::to_u8`. -/
def Flags.to_u8 (fl : Flags) : Nat :=
  (cond fl.zero 1 0) <<< 7 |||
  (cond fl.subtract 1 0) <<< 6 |||
  (cond fl.half_carry 1 0) <<< 5 |||
  (cond fl.carry 1 0) <<< 4

/-- `Flags::from_u8`. -/
def Flags.from_u8 (value : Nat) : Flags :=
  ⟨value &&& 0x80 != 0, value &&& 0x40 != 0, value &&& 0x20 != 0, value &&& 0x10 != 0⟩

/-- `Registers` (register.rs): eight 8-bit registers and two 16-bit ones. -/
structure Registers where
  a : Nat
  b : Nat
  c : Nat
  d : Nat
  e : Nat
  f : Nat
  h : Nat
  l : Nat
  sp : Nat
  pc : Nat

def Registers.set_a (r : Registers) (v : Nat) : Registers := { r with a := v }
def Registers.set_b (r : Registers) (v : Nat) : Registers := { r with b := v }
def Registers.set_c (r : Registers) (v : Nat) : Registers := { r with c := v }
def Registers.set_d (r : Registers) (v : Nat) : Registers := { r with d := v }
def Registers.set_e (r : Registers) (v : Nat) : Registers := { r with e := v }
def Registers.set_h (r : Registers) (v : Nat) : Registers := { r with h := v }
def Registers.set_l (r : Registers) (v : Nat) : Registers := { r with l := v }
def Registers.set_sp (r : Registers) (v : Nat) : Registers := { r with sp := v }
def Registers.set_pc (r : Registers) (v : Nat) : Registers := { r with pc := v }

/-- `get_set_u16!` getter: `((reg1 as u16) << 8) | (reg2 as u16)`. -/
def Registers.get_af (r : Registers) : Nat := (r.a <<< 8) ||| r.f
def Registers.get_bc (r : Registers) : Nat := (r.b <<< 8) ||| r.c
def Registers.get_de (r : Registers) : Nat := (r.d <<< 8) ||| r.e
def Registers.get_hl (r : Registers) : Nat := (r.h <<< 8) ||| r.l

/-- `get_set_u16!` setter: `reg1 = ((val & 0xFF00) >> 8) as u8; reg2 = (val & 0xFF) as u8`.
Note that `set_af`, like the other pair setters, stores the low byte into F
verbatim — it does NOT go through the normalizing `set_f`. -/
def Registers.set_af (r : Registers) (val : Nat) : Registers :=
  { r with a := (val &&& 0xFF00) >>> 8, f := val &&& 0xFF }
def Registers.set_bc (r : Registers) (val : Nat) : Registers :=
  { r with b := (val &&& 0xFF00) >>> 8, c := val &&& 0xFF }
def Registers.set_de (r : Registers) (val : Nat) : Registers :=
  { r with d := (val &&& 0xFF00) >>> 8, e := val &&& 0xFF }
def Registers.set_hl (r : Registers) (val : Nat) : Registers :=
  { r with h := (val &&& 0xFF00) >>> 8, l := val &&& 0xFF }

/-- `Registers::set_f`: decodes the value into the four flag booleans and
re-encodes, discarding the low nibble. -/
def Registers.set_f (r : Registers) (value : Nat) : Registers :=
  { r with f := (Flags.from_u8 value).to_u8 }

/-- The all-zero register file produced by `Registers::new`. -/
def regs0 : Registers := ⟨0, 0, 0, 0, 0, 0, 0, 0, 0, 0⟩

/-- Well-formedness carried by the Rust types: every 8-bit register fits in
a byte and SP/PC fit in 16 bits. -/
def Registers.WF (r : Registers) : Prop :=
  r.a < 256 ∧ r.b < 256 ∧ r.c < 256 ∧ r.d < 256 ∧ r.e < 256 ∧
  r.f < 256 ∧ r.h < 256 ∧ r.l < 256 ∧ r.sp < 65536 ∧ r.pc < 65536

instance (r : Registers) : Decidable r.WF := by
  unfold Registers.WF; infer_instance

/-! ### cpu.rs -/

/-- `ArithmeticTarget` (cpu.rs). -/
inductive ArithmeticTarget
  | A | B | C | D | E | H | L | F | SP
deriving DecidableEq

/-- The CPU engine state (cpu.rs).  The `halted`/`stopped` flags and the
cumulative `clock_cycles` counter are omitted: no operation modelled here
reads them (`halted`/`stopped` are never set by any opcode, and
`clock_cycles` is only accumulated inside `step`, which is not embedded). -/
structure CPU where
  regs : Registers
  ram : RAM
  interrupt_master_enable : Bool
  previous_ime : Bool

/-- `CPU::set_flags`: packs the four booleans (in the order
zero, subtract, half-carry, carry) and writes them through `set_f`. -/
def CPU.set_flags (cpu : CPU) (zero subtract half_carry carry : Bool) : CPU :=
  { cpu with regs := cpu.regs.set_f (Flags.mk zero subtract half_carry carry).to_u8 }

/-- `CPU::add`: `overflowing_add`, store the result, then compute the
half-carry as `(self.registers.get_a() & 0xF) < (value & 0xF)` — reading
the accumulator after it was overwritten, so from the result byte.  (For
addition this happens to coincide with the carry-out of bit 3.) -/
def CPU.add (cpu : CPU) (value : Nat) : CPU :=
  let p := overflowingAdd8 cpu.regs.a value
  let cpu1 := { cpu with regs := cpu.regs.set_a p.1 }
  let half_carry := (cpu1.regs.a &&& 0xF) < (value &&& 0xF)
  let zero := p.1 = 0
  cpu1.set_flags zero false half_carry p.2

/-- `CPU::sub`: `overflowing_sub`, store the result, then compute the
half-carry as `(self.registers.get_a() & 0xF) < (value & 0xF)` — again
reading the accumulator after it was overwritten with the result. -/
def CPU.sub (cpu : CPU) (value : Nat) : CPU :=
  let p := overflowingSub8 cpu.regs.a value
  let cpu1 := { cpu with regs := cpu.regs.set_a p.1 }
  let half_carry := (cpu1.regs.a &&& 0xF) < (value &&& 0xF)
  let zero := p.1 = 0
  cpu1.set_flags zero true half_carry p.2

/-- `CPU::cp`: `let result = self.registers.get_a() - value;` — an
unchecked `u8` subtraction (panics when the accumulator is below the
operand), and the half-carry is computed with the ADDITION formula. -/
def CPU.cp (cpu : CPU) (value : Nat) : Option CPU := do
  let result ← chkSub cpu.regs.a value
  let carry := cpu.regs.a < value
  let half_carry := ((cpu.regs.a &&& 0xF) + (value &&& 0xF)) > 0xF
  let zero := result = 0
  pure (cpu.set_flags zero true half_carry carry)

/-- `CPU::inc`: unchecked `+ 1` on the selected register; for SP it
returns before touching the flags, otherwise it re-packs the flags with
the carry bit read back from F. -/
def CPU.inc (cpu : CPU) (target : ArithmeticTarget) : Option CPU := do
  let (value, cpu1) ← match target with
    | .A => (chkAdd8 cpu.regs.a 1).map fun v => (cpu.regs.a, { cpu with regs := cpu.regs.set_a v })
    | .B => (chkAdd8 cpu.regs.b 1).map fun v => (cpu.regs.b, { cpu with regs := cpu.regs.set_b v })
    | .C => (chkAdd8 cpu.regs.c 1).map fun v => (cpu.regs.c, { cpu with regs := cpu.regs.set_c v })
    | .D => (chkAdd8 cpu.regs.d 1).map fun v => (cpu.regs.d, { cpu with regs := cpu.regs.set_d v })
    | .E => (chkAdd8 cpu.regs.e 1).map fun v => (cpu.regs.e, { cpu with regs := cpu.regs.set_e v })
    | .H => (chkAdd8 cpu.regs.h 1).map fun v => (cpu.regs.h, { cpu with regs := cpu.regs.set_h v })
    | .L => (chkAdd8 cpu.regs.l 1).map fun v => (cpu.regs.l, { cpu with regs := cpu.regs.set_l v })
    | .SP => (chkAdd16 cpu.regs.sp 1).map fun v => (cpu.regs.sp, { cpu with regs := cpu.regs.set_sp v })
    | .F => none
  if target = .SP then
    pure cpu1
  else
    let half_carry := (value &&& 0xF) + 1 > 0xF
    let carry := cpu1.regs.f &&& 0x10 != 0
    let zero := (value + 1) &&& 0xFF = 0
    pure (cpu1.set_flags zero false half_carry carry)

/-- `CPU::dec`: unchecked `- 1` on the selected register; the half-carry
line `(value & 0xF) - 1 < 0` is itself an unchecked `u16` subtraction
(panics when the low nibble is zero) whose unsigned comparison with 0 is
always false. -/
def CPU.dec (cpu : CPU) (target : ArithmeticTarget) : Option CPU := do
  let (value, cpu1) ← match target with
    | .A => (chkSub cpu.regs.a 1).map fun v => (cpu.regs.a, { cpu with regs := cpu.regs.set_a v })
    | .B => (chkSub cpu.regs.b 1).map fun v => (cpu.regs.b, { cpu with regs := cpu.regs.set_b v })
    | .C => (chkSub cpu.regs.c 1).map fun v => (cpu.regs.c, { cpu with regs := cpu.regs.set_c v })
    | .D => (chkSub cpu.regs.d 1).map fun v => (cpu.regs.d, { cpu with regs := cpu.regs.set_d v })
    | .E => (chkSub cpu.regs.e 1).map fun v => (cpu.regs.e, { cpu with regs := cpu.regs.set_e v })
    | .H => (chkSub cpu.regs.h 1).map fun v => (cpu.regs.h, { cpu with regs := cpu.regs.set_h v })
    | .L => (chkSub cpu.regs.l 1).map fun v => (cpu.regs.l, { cpu with regs := cpu.regs.set_l v })
    | .SP => (chkSub cpu.regs.sp 1).map fun v => (cpu.regs.sp, { cpu with regs := cpu.regs.set_sp v })
    | .F => none
  if target = .SP then
    pure cpu1
  else
    let t ← chkSub (value &&& 0xF) 1
    let half_carry := decide (t < 0)
    let carry := cpu1.regs.f &&& 0x10 != 0
    let zero := (value - 1) &&& 0xFF = 0
    pure (cpu1.set_flags zero true half_carry carry)

/-- `CPU::mod_mem` (INC (HL) / DEC (HL)): unchecked `value + 1` /
`value - 1` on the memory byte, then `set_flags(half_carry, false, zero,
!increment)` — the arguments land in the (zero, subtract, half-carry,
carry) positions in that scrambled order. -/
def CPU.mod_mem (cpu : CPU) (increment : Bool) : Option CPU := do
  let address := cpu.regs.get_hl
  let value ← cpu.ram.read address
  if increment then
    let v1 ← chkAdd8 value 1
    let ram1 ← cpu.ram.write address v1
    let half_carry := (value &&& 0xF) + 1 > 0xF
    let zero := (value + 1) &&& 0xFF = 0
    pure (CPU.set_flags { cpu with ram := ram1 } half_carry false zero (!increment))
  else
    let v1 ← chkSub value 1
    let ram1 ← cpu.ram.write address v1
    let half_carry := (value &&& 0xF) = 0
    let zero := (value - 1) &&& 0xFF = 0
    pure (CPU.set_flags { cpu with ram := ram1 } half_carry false zero (!increment))

/-- `CPU::add_hl`: 16-bit `overflowing_add` into HL, then
`set_flags(half_carry, carry, result == 0, false)` — again with the
computed values landing in the (zero, subtract, half-carry, carry)
positions in that scrambled order. -/
def CPU.add_hl (cpu : CPU) (target1 target2 : ArithmeticTarget) : Option CPU := do
  let value := cpu.regs.get_hl
  let add_value ← match target1, target2 with
    | .B, .C => some cpu.regs.get_bc
    | .D, .E => some cpu.regs.get_de
    | .H, .L => some cpu.regs.get_hl
    | .SP, .SP => some cpu.regs.sp
    | _, _ => none
  let p := overflowingAdd16 value add_value
  let cpu1 := { cpu with regs := cpu.regs.set_hl p.1 }
  let half_carry := (value &&& 0xFF) + (add_value &&& 0xFF) > 0xFF
  pure (cpu1.set_flags half_carry p.2 (p.1 = 0) false)

/-- `push_16bit!` macro: decrement SP, write the high byte, decrement SP,
write the low byte.  Returns the final SP and the updated memory. -/
def push_16bit (m : RAM) (sp value : Nat) : Option (Nat × RAM) := do
  let sp1 ← chkSub sp 1
  let m1 ← m.write sp1 ((value >>> 8) &&& 0xFF)
  let sp2 ← chkSub sp1 1
  let m2 ← m1.write sp2 (value &&& 0xFF)
  pure (sp2, m2)

/-- `pop_16bit!` macro: read the low byte, increment SP, read the high
byte, increment SP.  Returns the final SP and the 16-bit value. -/
def pop_16bit (m : RAM) (sp : Nat) : Option (Nat × Nat) := do
  let lower_half ← m.read sp
  let sp1 ← chkAdd16 sp 1
  let upper_half ← m.read sp1
  let sp2 ← chkAdd16 sp1 1
  pure (sp2, (upper_half <<< 8) ||| lower_half)

/-- `CPU::push`: valid pairs are BC, DE, HL and AF; anything else panics. -/
def CPU.push (cpu : CPU) (target target2 : ArithmeticTarget) : Option CPU := do
  let value ← match target, target2 with
    | .B, .C => some cpu.regs.get_bc
    | .D, .E => some cpu.regs.get_de
    | .H, .L => some cpu.regs.get_hl
    | .A, .F => some cpu.regs.get_af
    | _, _ => none
  let (sp', m') ← push_16bit cpu.ram cpu.regs.sp value
  pure { cpu with ram := m', regs := cpu.regs.set_sp sp' }

/-- `CPU::pop`: valid pairs are BC, DE, HL and AF (the AF case stores the
popped word through the raw `set_af`); anything else panics. -/
def CPU.pop (cpu : CPU) (target target2 : ArithmeticTarget) : Option CPU := do
  let (sp', v) ← pop_16bit cpu.ram cpu.regs.sp
  let regs1 ← match target, target2 with
    | .B, .C => some (cpu.regs.set_bc v)
    | .D, .E => some (cpu.regs.set_de v)
    | .H, .L => some (cpu.regs.set_hl v)
    | .A, .F => some (cpu.regs.set_af v)
    | _, _ => none
  pure { cpu with regs := regs1.set_sp sp' }

/-- `CPU::get_interrupt_vector`: priority scan over the INTERRUPT FLAGS
byte alone — the interrupt-enable mask is not consulted, and any flag
pattern with the low four bits clear falls through to JOYPAD. -/
def CPU.get_interrupt_vector (interrupt_flag : Nat) : Nat :=
  if interrupt_flag &&& 0x01 != 0 then 0x01
  else if interrupt_flag &&& 0x02 != 0 then 0x02
  else if interrupt_flag &&& 0x04 != 0 then 0x04
  else if interrupt_flag &&& 0x08 != 0 then 0x08
  else 0x10

/-- `CPU::get_interrupt_handler`: fixed vector-to-handler map. -/
def CPU.get_interrupt_handler (interrupt_vector : Nat) : Nat :=
  if interrupt_vector = 0x01 then 0x40
  else if interrupt_vector = 0x02 then 0x48
  else if interrupt_vector = 0x04 then 0x50
  else if interrupt_vector = 0x08 then 0x58
  else 0x60

/-- `CPU::handle_interrupts`: when IME is set it first executes
`assert!(self.ram.read(0xFF0F) & 0x1F != 0)` (a panic whenever no
interrupt happens to be pending), then reads the interrupt-enable byte at
0xFFFF — an index one past the end of the 0xFFFF-byte memory array. -/
def CPU.handle_interrupts (cpu : CPU) : Option CPU := do
  if cpu.interrupt_master_enable then
    let asserted ← cpu.ram.read 0xFF0F
    if asserted &&& 0x1F = 0 then
      none
    else
      let interrupt_flag ← cpu.ram.read 0xFF0F
      let interrupt_enable ← cpu.ram.read 0xFFFF
      if interrupt_flag &&& interrupt_enable != 0 then
        let cpu1 := { cpu with previous_ime := cpu.interrupt_master_enable,
                               interrupt_master_enable := false }
        let (sp', m') ← push_16bit cpu1.ram cpu1.regs.sp cpu1.regs.pc
        let cpu2 := { cpu1 with ram := m', regs := cpu1.regs.set_sp sp' }
        let interrupt_vector := CPU.get_interrupt_vector interrupt_flag
        let interrupt_handler := CPU.get_interrupt_handler interrupt_vector
        let m2 ← cpu2.ram.write 0xFF0F (interrupt_flag &&& (255 ^^^ interrupt_vector))
        pure { cpu2 with ram := m2, regs := cpu2.regs.set_pc interrupt_handler }
      else
        pure cpu
  else
    pure cpu

/-! ### gpu.rs -/

/-- `Mode` (gpu.rs). -/
inductive Mode
  | HBLANK | VBLANK | OAM | VRAM
deriving DecidableEq

/-- The `mode as u8` discriminants (HBLANK=0, VBLANK=1, OAM=2, VRAM=3). -/
def Mode.toU8 : Mode → Nat
  | .HBLANK => 0
  | .VBLANK => 1
  | .OAM => 2
  | .VRAM => 3

/-- `LCD_STATUS_REG` (gpu.rs). -/
structure LCD_STATUS_REG where
  mode : Mode
  ly_compare : Bool
  mode_0_set : Bool
  mode_1_set : Bool
  mode_2_set : Bool
  lyc_int_select : Bool
  empty_1 : Bool

/-- `From<LCD_STATUS_REG> for u8`. -/
def statusToU8 (s : LCD_STATUS_REG) : Nat :=
  s.mode.toU8 |||
  (cond s.ly_compare 1 0) <<< 2 |||
  (cond s.mode_0_set 1 0) <<< 3 |||
  (cond s.mode_1_set 1 0) <<< 4 |||
  (cond s.mode_2_set 1 0) <<< 5 |||
  (cond s.lyc_int_select 1 0) <<< 6

/-- `From<u8> for LCD_STATUS_REG`. -/
def statusFromU8 (value : Nat) : LCD_STATUS_REG where
  mode := match value &&& 0b11 with
    | 0 => .HBLANK
    | 1 => .VBLANK
    | 2 => .OAM
    | _ => .VRAM
  ly_compare := value &&& 0b100 != 0
  mode_0_set := value &&& 0b1000 != 0
  mode_1_set := value &&& 0b10000 != 0
  mode_2_set := value &&& 0b100000 != 0
  lyc_int_select := value &&& 0b1000000 != 0
  empty_1 := false

/-- The PPU engine state (gpu.rs).  `vram` models the 0x2000-byte VRAM
array and `oam` the 0xA0-byte OAM array as total functions (every access
in the source is bounds-checked before indexing, see `read_vram`).  The
RGBA `screen_buffer` is not part of the modelled state: no claim below
mentions it, and the rendering passes write nothing but that buffer. -/
structure GPU where
  ram : RAM
  vram : Nat → Nat
  oam : Nat → Nat
  clock : Nat
  mode : Mode
  current_scanline : Nat

/-- `GPU::render_scanline` reads the LCD-control byte, VRAM and OAM, and
writes only into `screen_buffer`; neither pass mutates `ram`, `vram`,
`oam`, `clock`, `mode` or `current_scanline`, and every index it forms is
in bounds (tile addresses stay within 0x8000–0x9FFF and OAM offsets below
0xA0), so on the modelled fields it is the identity. -/
def GPU.render_scanline (g : GPU) : GPU := g

/-- `GPU::step_set_mode`: the four-state machine.  `current_scanline += 1`
is an unchecked `u8` addition, modelled with `chkAdd8`. -/
def GPU.step_set_mode (g : GPU) : Option GPU :=
  match g.mode with
  | .OAM =>
    if 80 ≤ g.clock then some { g with mode := .VRAM, clock := 0 } else some g
  | .VRAM =>
    if 172 ≤ g.clock then some { g with mode := .HBLANK, clock := 0 } else some g
  | .HBLANK =>
    if 204 ≤ g.clock then
      match chkAdd8 (g.render_scanline).current_scanline 1 with
      | none => none
      | some sl =>
        if 144 ≤ sl then
          match RAM.read (g.render_scanline).ram 0xFF0F with
          | none => none
          | some if_flags =>
            match RAM.write (g.render_scanline).ram 0xFF0F (if_flags ||| 0x01) with
            | none => none
            | some m' =>
              some { g.render_scanline with current_scanline := sl, clock := 0, mode := .VBLANK, ram := m' }
        else
          some { g.render_scanline with current_scanline := sl, clock := 0, mode := .OAM }
    else some g
  | .VBLANK =>
    if 4560 ≤ g.clock then
      match chkAdd8 g.current_scanline 1 with
      | none => none
      | some sl =>
        if 154 ≤ sl then
          some { g with clock := 0, mode := .OAM, current_scanline := 0 }
        else
          some { g with current_scanline := sl, clock := 0 }
    else some g

/-- `GPU::step_lcd_status`: refresh the mode and LY-compare bits of the
LCD-status register and publish the scanline into LY. -/
def GPU.step_lcd_status (g : GPU) : Option GPU := do
  let sreg ← g.ram.read 0xFF41
  let lcd_status := { statusFromU8 sreg with mode := g.mode }
  let m1 ← g.ram.write 0xFF44 g.current_scanline
  let lyc ← m1.read 0xFF45
  let lcd_status := { lcd_status with ly_compare := g.current_scanline = lyc }
  let m2 ← m1.write 0xFF41 (statusToU8 lcd_status)
  pure { g with ram := m2 }

/-- `GPU::step`: accumulate the elapsed cycles (unchecked `u32` add), run
the mode machine, then refresh the status registers. -/
def GPU.step (g : GPU) (cycles : Nat) : Option GPU := do
  let c ← chkAdd32 g.clock cycles
  let g1 ← GPU.step_set_mode { g with clock := c }
  g1.step_lcd_status

/-- `GPU::read_vram`: asserts the address lies in 0x8000–0x9FFF (panic
otherwise), returns the sentinel 0xFF during OAM-search or
pixel-transfer, and the stored byte during H-blank or V-blank. -/
def GPU.read_vram (g : GPU) (address : Nat) : Option Nat :=
  if 0x8000 ≤ address ∧ address < 0x8000 + 0x2000 then
    some (if g.mode = .HBLANK ∨ g.mode = .VBLANK then g.vram (address - 0x8000) else 0xFF)
  else none

/-- `GPU::write_vram`: same assert; the store happens only during H-blank
or V-blank, otherwise the write is silently dropped. -/
def GPU.write_vram (g : GPU) (address value : Nat) : Option GPU :=
  if 0x8000 ≤ address ∧ address < 0x8000 + 0x2000 then
    some (if g.mode = .HBLANK ∨ g.mode = .VBLANK then
      { g with vram := Function.update g.vram (address - 0x8000) value }
    else g)
  else none

/-! ### Concrete states used in the evaluations below -/

/-- CPU with all-zero registers over all-zero memory, IME clear. -/
def cpu0 : CPU := ⟨regs0, ram0, false, false⟩

/-- CPU with accumulator 5, otherwise zero. -/
def cpuA5 : CPU := ⟨{ regs0 with a := 5 }, ram0, false, false⟩

/-- CPU with accumulator 15, otherwise zero. -/
def cpuA15 : CPU := ⟨{ regs0 with a := 15 }, ram0, false, false⟩

/-- CPU with accumulator 255, otherwise zero. -/
def cpuA255 : CPU := ⟨{ regs0 with a := 255 }, ram0, false, false⟩

/-- CPU whose memory holds 0xFF everywhere (so the byte at HL = 0 is 0xFF). -/
def cpuMemFF : CPU := ⟨regs0, ⟨fun _ => 0xFF⟩, false, false⟩

/-- CPU with the carry flag set (F = 0x10) over memory holding 5 everywhere. -/
def cpuCarry : CPU := ⟨{ regs0 with f := 0x10 }, ⟨fun _ => 5⟩, false, false⟩

/-- CPU with HL = 0x8000 and BC = 0x8000. -/
def cpuHL8000 : CPU := ⟨{ regs0 with h := 0x80, b := 0x80 }, ram0, false, false⟩

/-- Memory with the VBlank bit set in the interrupt-flags byte at 0xFF0F. -/
def ramIF1 : RAM := ⟨fun a => if a = 0xFF0F then 1 else 0⟩

/-- CPU with IME set and a pending VBlank request. -/
def cpuPend : CPU := ⟨{ regs0 with sp := 0xFFFE }, ramIF1, true, false⟩

/-- CPU with IME set and no interrupt-flag bits set at all. -/
def cpuQuiet : CPU := ⟨{ regs0 with sp := 0xFFFE }, ram0, true, false⟩

/-- CPU with IME clear and a pending VBlank request. -/
def cpuOff : CPU := ⟨regs0, ramIF1, false, false⟩

/-- Round-trip shape for one register pair, with `pair` the 16-bit getter
of that pair: PUSH lands on SP-2 having written the high byte at SP-1 and
the low byte at SP-2, and the following POP restores the pair's value and
the original SP. -/
def PushPopRT (cpu : CPU) (t1 t2 : ArithmeticTarget) (pair : CPU → Nat) : Prop :=
  ∃ mid fin, cpu.push t1 t2 = some mid ∧
    mid.regs.sp = cpu.regs.sp - 2 ∧
    mid.ram.read (cpu.regs.sp - 1) = some ((pair cpu >>> 8) &&& 0xFF) ∧
    mid.ram.read (cpu.regs.sp - 2) = some (pair cpu &&& 0xFF) ∧
    mid.pop t1 t2 = some fin ∧
    fin.regs.sp = cpu.regs.sp ∧ pair fin = pair cpu

/-- CPU with BC = 0x1234 and SP = 0xFFFE used as the round-trip witness. -/
def cpuStack : CPU := ⟨{ regs0 with b := 0x12, c := 0x34, sp := 0xFFFE }, ram0, false, false⟩

/-- The PPU state used as the concrete step-timing witness. -/
def gpuEx : GPU := ⟨ram0, (fun _ => 0), (fun _ => 0), 0, .OAM, 0⟩

/-- The state after feeding 80 cycles to `gpuEx`. -/
def gpuEx80 : GPU := (gpuEx.step 80).getD gpuEx

/-- The PPU state (OAM-search mode, VRAM filled with 7) used as the
gating witness. -/
def gpuOam : GPU := ⟨ram0, (fun _ => 7), (fun _ => 0), 0, .OAM, 0⟩

/-! ### Bit-level helper lemmas used to reason about the 16-bit pairing -/

theorem shiftRight_or (x y k : Nat) : (x ||| y) >>> k = (x >>> k) ||| (y >>> k) := by
  apply Nat.eq_of_testBit_eq
  intro i
  simp [Nat.testBit_shiftRight, Nat.testBit_or]

theorem shiftRight_and (x y k : Nat) : (x &&& y) >>> k = (x >>> k) &&& (y >>> k) := by
  apply Nat.eq_of_testBit_eq
  intro i
  simp [Nat.testBit_shiftRight, Nat.testBit_and]

theorem and255_eq_mod (x : Nat) : x &&& 255 = x % 256 := by
  have h : (255 : Nat) = 2 ^ 8 - 1 := by norm_num
  have h2 : (256 : Nat) = 2 ^ 8 := by norm_num
  rw [h, Nat.and_pow_two_sub_one_eq_mod, h2]

theorem shr8_eq_div (x : Nat) : x >>> 8 = x / 256 := by
  have h2 : (256 : Nat) = 2 ^ 8 := by norm_num
  rw [Nat.shiftRight_eq_div_pow, h2]

theorem lorDisjoint (hi lo : Nat) (hlo : lo < 256) :
    (hi <<< 8) ||| lo = hi * 256 + lo := by
  have hd : ((hi <<< 8) ||| lo) >>> 8 = hi := by
    rw [shiftRight_or, Nat.shiftLeft_shiftRight, shr8_eq_div,
      Nat.div_eq_of_lt hlo, Nat.or_zero]
  have hm : ((hi <<< 8) ||| lo) &&& 255 = lo := by
    rw [Nat.and_distrib_right, and255_eq_mod (hi <<< 8), and255_eq_mod lo,
      Nat.shiftLeft_eq]
    have : hi * 2 ^ 8 % 256 = 0 := by
      have : (2 : Nat) ^ 8 = 256 := by norm_num
      simp [this, Nat.mul_mod_left]
    rw [this, Nat.zero_or, Nat.mod_eq_of_lt hlo]
  rw [shr8_eq_div] at hd
  rw [and255_eq_mod] at hm
  have hx := Nat.div_add_mod ((hi <<< 8) ||| lo) 256
  omega

theorem pair_lt (hi lo : Nat) (hhi : hi < 256) (hlo : lo < 256) :
    (hi <<< 8) ||| lo < 65536 := by
  rw [lorDisjoint hi lo hlo]; omega

theorem pair_hi (hi lo : Nat) (hhi : hi < 256) (hlo : lo < 256) :
    (((hi <<< 8) ||| lo) &&& 0xFF00) >>> 8 = hi := by
  rw [lorDisjoint hi lo hlo]
  have h1 : ((hi * 256 + lo) &&& 0xFF00) >>> 8 =
      ((hi * 256 + lo) >>> 8) &&& (0xFF00 >>> 8) := shiftRight_and ..
  have h2 : (0xFF00 : Nat) >>> 8 = 255 := by norm_num [shr8_eq_div]
  rw [h1, h2, shr8_eq_div, and255_eq_mod]
  omega

theorem pair_lo (hi lo : Nat) (hlo : lo < 256) :
    ((hi <<< 8) ||| lo) &&& 0xFF = lo := by
  rw [lorDisjoint hi lo hlo, and255_eq_mod]
  omega

theorem pair_shr8_hi (hi lo : Nat) (hhi : hi < 256) (hlo : lo < 256) :
    (((hi <<< 8) ||| lo) >>> 8) &&& 0xFF = hi := by
  rw [lorDisjoint hi lo hlo, shr8_eq_div, and255_eq_mod]
  omega

theorem bytes_recombine (v : Nat) (hv : v < 65536) :
    (((v >>> 8) &&& 0xFF) <<< 8) ||| (v &&& 0xFF) = v := by
  have hlo : v &&& 0xFF < 256 := by rw [and255_eq_mod]; omega
  rw [lorDisjoint _ _ hlo, shr8_eq_div, and255_eq_mod, and255_eq_mod]
  omega

/-! ### C1 -/

/-- C1: the claim says memory is a total 64KB array with no out-of-bounds
failure for any address up to and including 0xFFFF.  The array actually
has 0xFFFF = 65535 elements, so both `read` and `write` at the reserved
interrupt-enable address 0xFFFF index one past the end and panic, while
0xFFFE and below behave as claimed. -/
theorem ram_read_write_0xFFFF_panics :
    RAM.read ram0 0xFFFF = none ∧ RAM.write ram0 0xFFFF 0xAB = none ∧
    RAM.read ram0 0xFFFE = some 0 ∧ RAM.read ram0 0 = some 0 :=
  ⟨rfl, rfl, rfl, rfl⟩

/-! ### C2 -/

/-- C2: with IME set and a pending, enabled interrupt the dispatcher is
claimed to push PC and jump to the handler, and with IME set but nothing
pending it is claimed to leave the state unchanged.  Instead: a pending
request dies on the out-of-bounds read of the interrupt-enable byte at
0xFFFF (panic), an empty interrupt-flags byte dies on the
`assert!(IF & 0x1F != 0)` (panic), and the priority selector consults the
interrupt-flags byte alone — for IF = 0x03 it picks VBlank (bit 0)
regardless of which of the two interrupts is enabled.  Only the IME-clear
path behaves as claimed. -/
theorem handle_interrupts_eval :
    CPU.handle_interrupts cpuPend = none ∧
    CPU.handle_interrupts cpuQuiet = none ∧
    CPU.handle_interrupts cpuOff = some cpuOff ∧
    CPU.get_interrupt_vector 0x03 = 0x01 :=
  ⟨rfl, rfl, rfl, rfl⟩

/-! ### C3 -/

/-- C3: the claim says the half-carry of SUB equals the borrow condition
`a_low_nibble < b_low_nibble` and likewise for CP.  Evaluating the code:
SUB with A = 5, operand 4 sets half-carry (the code compares the RESULT's
low nibble with the operand's) although 5 % 16 < 4 % 16 is false, and CP
with A = 15, operand 1 sets half-carry (the code uses the addition
formula) although 15 % 16 < 1 % 16 is false. -/
theorem sub_cp_half_carry_eval :
    (Flags.from_u8 ((CPU.sub cpuA5 4).regs.f)).half_carry = true ∧
    ¬ (5 % 16 < 4 % 16) ∧
    (CPU.cp cpuA15 1).map (fun c => (Flags.from_u8 c.regs.f).half_carry) = some true ∧
    ¬ (15 % 16 < 1 % 16) := by
  refine ⟨?_, by decide, ?_, by decide⟩ <;> rfl

/-! ### C5 -/

/-- C5: the claim says INC (HL) and DEC (HL) preserve the carry flag
bit-for-bit.  Evaluating `mod_mem` on memory byte 5 with the carry flag
initially set: the increment form clears carry, and the decrement form
(which would leave it set only by accident) also reports subtract = false
— the scrambled `set_flags(half_carry, false, zero, !increment)` call
stores `!increment` in the carry position. -/
theorem mod_mem_clobbers_carry_eval :
    (Flags.from_u8 cpuCarry.regs.f).carry = true ∧
    (CPU.mod_mem cpuCarry true).map (fun c => (Flags.from_u8 c.regs.f).carry) = some false ∧
    (CPU.mod_mem cpuCarry false).map (fun c => (Flags.from_u8 c.regs.f).carry) = some true ∧
    (CPU.mod_mem cpuCarry false).map (fun c => (Flags.from_u8 c.regs.f).subtract) = some false := by
  refine ⟨rfl, ?_, ?_, ?_⟩ <;> rfl

/-! ### C6 -/

/-- C6: the claim says ADD HL,BC sets zero from the 16-bit result,
subtract to false, and carry from the 16-bit addition.  Evaluating
HL = 0x8000 plus BC = 0x8000 (result 0, 16-bit carry out): the result is
indeed 0, yet zero reads false, subtract reads true and carry reads false
— the scrambled `set_flags(half_carry, carry, result == 0, false)` call
put each value in the wrong position. -/
theorem add_hl_flags_eval :
    (CPU.add_hl cpuHL8000 .B .C).map (fun c => c.regs.get_hl) = some 0 ∧
    (CPU.add_hl cpuHL8000 .B .C).map (fun c => (Flags.from_u8 c.regs.f).zero) = some false ∧
    (CPU.add_hl cpuHL8000 .B .C).map (fun c => (Flags.from_u8 c.regs.f).subtract) = some true ∧
    (CPU.add_hl cpuHL8000 .B .C).map (fun c => (Flags.from_u8 c.regs.f).carry) = some false := by
  refine ⟨?_, ?_, ?_, ?_⟩ <;> rfl

/-! ### C10 -/

/-- C10: the error branches of the unchecked byte arithmetic are reachable
from ordinary inputs: CP with accumulator 0 against operand 1 panics on
the unchecked `a - value`, INC A at 0xFF and DEC A at 0x00 panic on the
unchecked `± 1`, and INC (HL)/DEC (HL) panic on a memory byte at the wrap
boundary — none of them produce the wrapped result the Game Boy requires. -/
theorem unchecked_arithmetic_panics_eval :
    CPU.cp cpu0 1 = none ∧
    CPU.inc cpuA255 .A = none ∧
    CPU.dec cpu0 .A = none ∧
    CPU.mod_mem cpuMemFF true = none ∧
    CPU.mod_mem cpu0 false = none :=
  ⟨rfl, rfl, rfl, rfl, rfl⟩

/-! ### C4 -/

/-- Packing four flag booleans always leaves the low nibble clear. -/
theorem flags_to_u8_low_nibble (fl : Flags) : fl.to_u8 &&& 0x0F = 0 := by
  rcases fl with ⟨z, s, hc, c⟩
  cases z <;> cases s <;> cases hc <;> cases c <;> rfl

/-- C4 counterexample: the claim says the AF-pair setter used by POP AF
normalizes the value written to F.  `set_af 0x000F` stores F = 0x0F — a
nonzero low nibble. -/
theorem set_af_keeps_low_nibble :
    (regs0.set_af 0x000F).f = 0x0F ∧ (regs0.set_af 0x000F).f &&& 0x0F ≠ 0 :=
  ⟨rfl, by decide⟩

/-- C4 (amended): `set_f` normalizes every value it writes, so the low
nibble of F is zero after any `set_f`; the AF-pair setter, however,
stores the low byte of the written word into F verbatim, so POP AF can
leave a nonzero low nibble in F. -/
theorem set_f_normalizes_set_af_does_not :
    (∀ (r : Registers) (v : Nat), (r.set_f v).f &&& 0x0F = 0) ∧
    (∀ (r : Registers) (v : Nat), (r.set_af v).f = v &&& 0xFF) := by
  refine ⟨fun r v => ?_, fun r v => rfl⟩
  show (Flags.from_u8 v).to_u8 &&& 0x0F = 0
  exact flags_to_u8_low_nibble _

/-! ### C7 -/

theorem hiByte_eq (v : Nat) : (v &&& 0xFF00) >>> 8 = (v >>> 8) &&& 0xFF := by
  rw [shiftRight_and]
  norm_num [shr8_eq_div]

theorem set_get_pair (v : Nat) (hv : v < 65536) :
    (((v &&& 0xFF00) >>> 8) <<< 8) ||| (v &&& 0xFF) = v := by
  rw [hiByte_eq]
  exact bytes_recombine v hv

/-- The stack memory discipline of the `push_16bit!`/`pop_16bit!` macros:
pushing a 16-bit value at SP writes the high byte at SP-1 and the low
byte at SP-2 and lands on SP-2, and popping from SP-2 reads them back in
the opposite order and returns to SP with the original value. -/
theorem stack_rw (m : RAM) (sp value : Nat) (h2 : 2 ≤ sp) (hsp : sp < 65536)
    (hv : value < 65536) :
    ∃ m', push_16bit m sp value = some (sp - 2, m') ∧
      m'.read (sp - 1) = some ((value >>> 8) &&& 0xFF) ∧
      m'.read (sp - 2) = some (value &&& 0xFF) ∧
      pop_16bit m' (sp - 2) = some (sp, value) := by
  have hpush : push_16bit m sp value =
      some (sp - 2, ⟨Function.update (Function.update m.memory (sp - 1)
        ((value >>> 8) &&& 0xFF)) (sp - 2) (value &&& 0xFF)⟩) := by
    have e1 : chkSub sp 1 = some (sp - 1) := by
      unfold chkSub; rw [if_pos (show (1 : Nat) ≤ sp by omega)]
    have w1 : m.write (sp - 1) ((value >>> 8) &&& 0xFF) =
        some ⟨Function.update m.memory (sp - 1) ((value >>> 8) &&& 0xFF)⟩ := by
      unfold RAM.write; rw [if_pos (show sp - 1 < 0xFFFF by omega)]
    have e2 : chkSub (sp - 1) 1 = some (sp - 2) := by
      unfold chkSub; rw [if_pos (show (1 : Nat) ≤ sp - 1 by omega)]
      all_goals simp only [Option.some.injEq]
      all_goals omega
    have w2 : RAM.write ⟨Function.update m.memory (sp - 1) ((value >>> 8) &&& 0xFF)⟩
        (sp - 2) (value &&& 0xFF) =
        some ⟨Function.update (Function.update m.memory (sp - 1)
          ((value >>> 8) &&& 0xFF)) (sp - 2) (value &&& 0xFF)⟩ := by
      unfold RAM.write; rw [if_pos (show sp - 2 < 0xFFFF by omega)]
    unfold push_16bit
    rw [e1]; simp only [Option.bind_eq_bind, Option.some_bind]
    rw [w1]; simp only [Option.some_bind]
    rw [e2]; simp only [Option.some_bind]
    simp only [w2, Option.some_bind, Option.pure_def]
  have hr1 : RAM.read ⟨Function.update (Function.update m.memory (sp - 1)
      ((value >>> 8) &&& 0xFF)) (sp - 2) (value &&& 0xFF)⟩ (sp - 1) =
      some ((value >>> 8) &&& 0xFF) := by
    unfold RAM.read
    rw [if_pos (show sp - 1 < 0xFFFF by omega)]
    show some (Function.update (Function.update m.memory (sp - 1)
      ((value >>> 8) &&& 0xFF)) (sp - 2) (value &&& 0xFF) (sp - 1)) = _
    rw [Function.update_noteq (show sp - 1 ≠ sp - 2 by omega), Function.update_same]
  have hr2 : RAM.read ⟨Function.update (Function.update m.memory (sp - 1)
      ((value >>> 8) &&& 0xFF)) (sp - 2) (value &&& 0xFF)⟩ (sp - 2) =
      some (value &&& 0xFF) := by
    unfold RAM.read
    rw [if_pos (show sp - 2 < 0xFFFF by omega)]
    show some (Function.update (Function.update m.memory (sp - 1)
      ((value >>> 8) &&& 0xFF)) (sp - 2) (value &&& 0xFF) (sp - 2)) = _
    rw [Function.update_same]
  have hpop : pop_16bit ⟨Function.update (Function.update m.memory (sp - 1)
      ((value >>> 8) &&& 0xFF)) (sp - 2) (value &&& 0xFF)⟩ (sp - 2) =
      some (sp, value) := by
    have a1 : chkAdd16 (sp - 2) 1 = some (sp - 1) := by
      unfold chkAdd16; rw [if_pos (show sp - 2 + 1 ≤ 65535 by omega)]
      all_goals simp only [Option.some.injEq]
      all_goals omega
    have a2 : chkAdd16 (sp - 1) 1 = some sp := by
      unfold chkAdd16; rw [if_pos (show sp - 1 + 1 ≤ 65535 by omega)]
      all_goals simp only [Option.some.injEq]
      all_goals omega
    unfold pop_16bit
    rw [hr2]; simp only [Option.bind_eq_bind, Option.some_bind]
    rw [a1]; simp only [Option.some_bind]
    rw [hr1]; simp only [Option.some_bind]
    rw [a2]; simp only [Option.some_bind]
    rw [bytes_recombine value hv]
    rfl
  exact ⟨_, hpush, hr1, hr2, hpop⟩

/-- C7 counterexample: the claim quantifies over every starting CPU
state, but with SP = 0 the first `*sp -= 1` of PUSH underflows (and in
release mode the wrapped write at 0xFFFF indexes out of bounds), so
PUSH-then-POP panics instead of restoring the pair. -/
theorem push_pop_panics_at_sp0 :
    (CPU.push cpu0 .B .C).bind (fun c => c.pop .B .C) = none := rfl

/-- C7 (amended): for every starting CPU state whose registers fit their
machine types and whose stack pointer is at least 2, PUSH then POP of the
same register pair (BC, DE, HL or AF) restores the pair's original value
and the original stack pointer; PUSH decrements SP by 2 writing the high
byte at SP-1 and then the low byte at SP-2, and POP reads the low byte
then the high byte and increments SP by 2. -/
theorem push_pop_roundtrip (cpu : CPU) (hwf : cpu.regs.WF) (hsp : 2 ≤ cpu.regs.sp) :
    PushPopRT cpu .B .C (fun c => c.regs.get_bc) ∧
    PushPopRT cpu .D .E (fun c => c.regs.get_de) ∧
    PushPopRT cpu .H .L (fun c => c.regs.get_hl) ∧
    PushPopRT cpu .A .F (fun c => c.regs.get_af) := by
  obtain ⟨ha, hb, hc, hd, he, hf, hh, hl, hsp16, hpc⟩ := hwf
  refine ⟨?_, ?_, ?_, ?_⟩
  · have hv : cpu.regs.get_bc < 65536 := pair_lt _ _ hb hc
    obtain ⟨m', hp, h1, h2, hq⟩ := stack_rw cpu.ram cpu.regs.sp cpu.regs.get_bc hsp hsp16 hv
    refine ⟨CPU.mk (cpu.regs.set_sp (cpu.regs.sp - 2)) m' cpu.interrupt_master_enable cpu.previous_ime,
            CPU.mk (((cpu.regs.set_sp (cpu.regs.sp - 2)).set_bc cpu.regs.get_bc).set_sp cpu.regs.sp) m' cpu.interrupt_master_enable cpu.previous_ime,
            ?_, rfl, h1, h2, ?_, rfl, ?_⟩
    · show (push_16bit cpu.ram cpu.regs.sp cpu.regs.get_bc).bind _ = _
      rw [hp]
      rfl
    · show (pop_16bit m' (cpu.regs.sp - 2)).bind _ = _
      rw [hq]
      rfl
    · show (((cpu.regs.get_bc &&& 0xFF00) >>> 8) <<< 8) ||| (cpu.regs.get_bc &&& 0xFF) = cpu.regs.get_bc
      exact set_get_pair _ hv
  · have hv : cpu.regs.get_de < 65536 := pair_lt _ _ hd he
    obtain ⟨m', hp, h1, h2, hq⟩ := stack_rw cpu.ram cpu.regs.sp cpu.regs.get_de hsp hsp16 hv
    refine ⟨CPU.mk (cpu.regs.set_sp (cpu.regs.sp - 2)) m' cpu.interrupt_master_enable cpu.previous_ime,
            CPU.mk (((cpu.regs.set_sp (cpu.regs.sp - 2)).set_de cpu.regs.get_de).set_sp cpu.regs.sp) m' cpu.interrupt_master_enable cpu.previous_ime,
            ?_, rfl, h1, h2, ?_, rfl, ?_⟩
    · show (push_16bit cpu.ram cpu.regs.sp cpu.regs.get_de).bind _ = _
      rw [hp]
      rfl
    · show (pop_16bit m' (cpu.regs.sp - 2)).bind _ = _
      rw [hq]
      rfl
    · show (((cpu.regs.get_de &&& 0xFF00) >>> 8) <<< 8) ||| (cpu.regs.get_de &&& 0xFF) = cpu.regs.get_de
      exact set_get_pair _ hv
  · have hv : cpu.regs.get_hl < 65536 := pair_lt _ _ hh hl
    obtain ⟨m', hp, h1, h2, hq⟩ := stack_rw cpu.ram cpu.regs.sp cpu.regs.get_hl hsp hsp16 hv
    refine ⟨CPU.mk (cpu.regs.set_sp (cpu.regs.sp - 2)) m' cpu.interrupt_master_enable cpu.previous_ime,
            CPU.mk (((cpu.regs.set_sp (cpu.regs.sp - 2)).set_hl cpu.regs.get_hl).set_sp cpu.regs.sp) m' cpu.interrupt_master_enable cpu.previous_ime,
            ?_, rfl, h1, h2, ?_, rfl, ?_⟩
    · show (push_16bit cpu.ram cpu.regs.sp cpu.regs.get_hl).bind _ = _
      rw [hp]
      rfl
    · show (pop_16bit m' (cpu.regs.sp - 2)).bind _ = _
      rw [hq]
      rfl
    · show (((cpu.regs.get_hl &&& 0xFF00) >>> 8) <<< 8) ||| (cpu.regs.get_hl &&& 0xFF) = cpu.regs.get_hl
      exact set_get_pair _ hv
  · have hv : cpu.regs.get_af < 65536 := pair_lt _ _ ha hf
    obtain ⟨m', hp, h1, h2, hq⟩ := stack_rw cpu.ram cpu.regs.sp cpu.regs.get_af hsp hsp16 hv
    refine ⟨CPU.mk (cpu.regs.set_sp (cpu.regs.sp - 2)) m' cpu.interrupt_master_enable cpu.previous_ime,
            CPU.mk (((cpu.regs.set_sp (cpu.regs.sp - 2)).set_af cpu.regs.get_af).set_sp cpu.regs.sp) m' cpu.interrupt_master_enable cpu.previous_ime,
            ?_, rfl, h1, h2, ?_, rfl, ?_⟩
    · show (push_16bit cpu.ram cpu.regs.sp cpu.regs.get_af).bind _ = _
      rw [hp]
      rfl
    · show (pop_16bit m' (cpu.regs.sp - 2)).bind _ = _
      rw [hq]
      rfl
    · show (((cpu.regs.get_af &&& 0xFF00) >>> 8) <<< 8) ||| (cpu.regs.get_af &&& 0xFF) = cpu.regs.get_af
      exact set_get_pair _ hv

theorem push_pop_roundtrip_witness :
    cpuStack.regs.WF ∧ 2 ≤ cpuStack.regs.sp ∧
    PushPopRT cpuStack .B .C (fun c => c.regs.get_bc) :=
  ⟨by decide, by decide, (push_pop_roundtrip cpuStack (by decide) (by decide)).1⟩

/-! ### C8 -/

/-- `step_lcd_status` only rewrites memory-mapped registers: it returns
`some` of the same state with an updated `ram`. -/
theorem step_lcd_status_some (g : GPU) :
    ∃ r, g.step_lcd_status = some { g with ram := r } :=
  ⟨_, rfl⟩

/-- Whenever `step_set_mode` changes the mode, it has reset the cycle
accumulator to zero. -/
theorem step_set_mode_clock (g g1 : GPU) (hs : g.step_set_mode = some g1)
    (hne : g1.mode ≠ g.mode) : g1.clock = 0 := by
  unfold GPU.step_set_mode at hs
  split at hs
  all_goals split at hs
  all_goals first
    | exact Option.noConfusion hs
    | (cases hs; rfl)
    | (cases hs; exact absurd rfl hne)
    | (split at hs
       all_goals first
         | exact Option.noConfusion hs
         | (cases hs; rfl)
         | (cases hs; exact absurd rfl hne)
         | (split at hs
            all_goals first
              | exact Option.noConfusion hs
              | (cases hs; rfl)
              | (cases hs; exact absurd rfl hne)
              | (split at hs
                 all_goals first
                   | exact Option.noConfusion hs
                   | (cases hs; rfl)
                   | (cases hs; exact absurd rfl hne))))

/-- C8: a PPU started in OAM-search at scanline 0 with accumulator 0 (over
any memory, VRAM and OAM contents) reaches pixel-transfer with accumulator
0 after step(80), horizontal-blank after a further step(172), and
OAM-search at scanline 1 after a further step(204); and in general every
mode transition of `step` leaves the cycle accumulator at zero. -/
theorem ppu_step_timing :
    (∀ (m : RAM) (vr oa : Nat → Nat),
      ((GPU.mk m vr oa 0 .OAM 0).step 80).map GPU.mode = some .VRAM ∧
      ((GPU.mk m vr oa 0 .OAM 0).step 80).map GPU.clock = some 0 ∧
      (((GPU.mk m vr oa 0 .OAM 0).step 80).bind (GPU.step · 172)).map GPU.mode
        = some .HBLANK ∧
      ((((GPU.mk m vr oa 0 .OAM 0).step 80).bind (GPU.step · 172)).bind
        (GPU.step · 204)).map GPU.mode = some .OAM ∧
      ((((GPU.mk m vr oa 0 .OAM 0).step 80).bind (GPU.step · 172)).bind
        (GPU.step · 204)).map GPU.current_scanline = some 1) ∧
    (∀ (g : GPU) (n : Nat) (g' : GPU),
      g.step n = some g' → g'.mode ≠ g.mode → g'.clock = 0) := by
  constructor
  · intro m vr oa
    exact ⟨rfl, rfl, rfl, rfl, rfl⟩
  · intro g n g' hs hne
    unfold GPU.step at hs
    rcases hc : chkAdd32 g.clock n with _ | c
    · rw [hc] at hs
      exact Option.noConfusion hs
    · rw [hc] at hs
      have hs1 : (GPU.step_set_mode { g with clock := c }).bind GPU.step_lcd_status
          = some g' := hs
      rcases hm : GPU.step_set_mode { g with clock := c } with _ | g1
      · rw [hm] at hs1
        exact Option.noConfusion hs1
      · rw [hm] at hs1
        have hs2 : GPU.step_lcd_status g1 = some g' := hs1
        obtain ⟨r, hr⟩ := step_lcd_status_some g1
        rw [hr] at hs2
        cases hs2
        exact step_set_mode_clock { g with clock := c } g1 hm hne

theorem ppu_step_timing_witness :
    gpuEx.step 80 = some gpuEx80 ∧ gpuEx80.mode ≠ gpuEx.mode ∧ gpuEx80.clock = 0 :=
  ⟨rfl, by decide, ppu_step_timing.2 gpuEx 80 gpuEx80 rfl (by decide)⟩

/-! ### C9 -/

/-- C9: for every VRAM address and value, a write attempted during
OAM-search or pixel-transfer leaves the stored VRAM bytes unchanged, a
read in those modes returns the 0xFF sentinel, and reading the same
address from the post-write state once the mode is H-blank or V-blank
returns the pre-write byte, not 0xFF. -/
theorem vram_gating (g : GPU) (addr v : Nat) (h1 : 0x8000 ≤ addr)
    (h2 : addr < 0xA000) (hm : g.mode = .OAM ∨ g.mode = .VRAM) :
    ∃ g', g.write_vram addr v = some g' ∧ g'.vram = g.vram ∧
      g.read_vram addr = some 0xFF ∧
      GPU.read_vram { g' with mode := .HBLANK } addr = some (g.vram (addr - 0x8000)) ∧
      GPU.read_vram { g' with mode := .VBLANK } addr = some (g.vram (addr - 0x8000)) := by
  have hrange : 0x8000 ≤ addr ∧ addr < 0x8000 + 0x2000 := ⟨h1, by omega⟩
  have hnot : ¬ (g.mode = .HBLANK ∨ g.mode = .VBLANK) := by
    rcases hm with hm | hm <;> rw [hm] <;> simp
  refine ⟨g, ?_, rfl, ?_, ?_, ?_⟩
  · unfold GPU.write_vram
    rw [if_pos hrange, if_neg hnot]
  · unfold GPU.read_vram
    rw [if_pos hrange, if_neg hnot]
  · unfold GPU.read_vram
    rw [if_pos hrange, if_pos (Or.inl rfl)]
  · unfold GPU.read_vram
    rw [if_pos hrange, if_pos (Or.inr rfl)]

theorem vram_gating_witness :
    ∃ g', gpuOam.write_vram 0x8005 9 = some g' ∧ g'.vram = gpuOam.vram ∧
      gpuOam.read_vram 0x8005 = some 0xFF ∧
      GPU.read_vram { g' with mode := .HBLANK } 0x8005 = some (gpuOam.vram (0x8005 - 0x8000)) ∧
      GPU.read_vram { g' with mode := .VBLANK } 0x8005 = some (gpuOam.vram (0x8005 - 0x8000)) :=
  vram_gating gpuOam 0x8005 9 (by decide) (by decide) (Or.inl rfl)

end GB
